import Mathlib

/-!
Verification of the ORS-Calculator core (`src/main.py`).

The program consists of two pure functions:
* `calculate_prodigy_score` — static PRODIGY risk score from demographic and
  clinical factors, via threshold/weight tables, scaled by 100 and capped at 100;
* `calculate_ors` — dynamic Overall Risk Score: a weighted sum of the normalized
  static score, vital-sign deviation scores and a breath-amplitude risk term,
  passed through the saturation transform `1 - exp(-2.2 * sum)` and classified
  into five risk levels.

Numeric values are modelled over `ℚ` (the Python floats in the source are all
exact decimal literals and the arithmetic is +, -, *, / and comparisons), and
the final exponential transform is expressed over `ℝ` with `Real.exp` in the
theorem statements.  A dictionary lookup that can raise `KeyError` (the gender
table) is modelled with `Option`.
-/

namespace ORSCalc

/-- Python's `max(iterable, default=d)`: the maximum of the list, or `d`
when the list is empty (the default is ignored on a nonempty list). -/
def maxWithDefault (d : ℚ) : List ℚ → ℚ
  | [] => d
  | x :: xs => xs.foldl max x

/-- Age threshold/weight table from `calculate_prodigy_score`
(`weights['age']['thresholds']`). -/
def ageThresholds : List (ℚ × ℚ) := [(50, 15/100), (60, 25/100), (70, 35/100), (80, 45/100)]

/-- Opioid-dosage threshold/weight table (`weights['opioid']['thresholds']`). -/
def opioidThresholds : List (ℚ × ℚ) := [(50, 20/100), (100, 35/100), (200, 50/100)]

/-- BMI threshold/weight table (`weights['bmi']['thresholds']`). -/
def bmiThresholds : List (ℚ × ℚ) := [(30, 15/100), (35, 25/100), (40, 35/100)]

/-- ASA-status threshold/weight table (`weights['asa']['thresholds']`). -/
def asaThresholds : List (ℚ × ℚ) := [(2, 15/100), (3, 25/100), (4, 35/100)]

/-- `max((weight for threshold, weight in thresholds if value >= threshold), default=0.0)`:
the Python idiom used for every continuous factor of `calculate_prodigy_score`. -/
def thresholdWeight (tbl : List (ℚ × ℚ)) (value : ℚ) : ℚ :=
  maxWithDefault 0 ((tbl.filter (fun tw => decide (tw.1 ≤ value))).map (fun tw => tw.2))

/-- Python's `str.lower()`, as a character-wise map (the gender keys involved are
ASCII, where this agrees with Python's lowering). -/
def lower (s : String) : String := String.mk (s.data.map Char.toLower)

/-- `weights['gender'][gender.lower()]`: a dict lookup on the lower-cased gender
string; a key other than `"male"`/`"female"` raises `KeyError`, modelled as `none`. -/
def genderWeight (gender : String) : Option ℚ :=
  if lower gender = "male" then some (20/100)
  else if lower gender = "female" then some (10/100)
  else none

/-- The variable `score` accumulated inside `calculate_prodigy_score`, as a function
of the already-looked-up gender weight `gw`: the sum of the age weight, the gender
weight, the boolean-flag weights, the opioid weight, and the optional BMI / COPD /
ASA contributions. -/
def prodigy_raw (age gw : ℚ) (sleep_apnea : Bool) (opioid_dosage : ℚ)
    (sedative_use : Bool) (bmi : Option ℚ) (copd : Bool) (asa_status : Option ℚ) : ℚ :=
  thresholdWeight ageThresholds age
  + gw
  + (if sleep_apnea then 35/100 else 0)
  + thresholdWeight opioidThresholds opioid_dosage
  + (if sedative_use then 35/100 else 0)
  + (match bmi with
     | some b => thresholdWeight bmiThresholds b
     | none => 0)
  + (if copd then 25/100 else 0)
  + (match asa_status with
     | some a => thresholdWeight asaThresholds a
     | none => 0)

/-- `calculate_prodigy_score` from `src/main.py`.  Returns `none` exactly when the
gender lookup raises `KeyError`; otherwise `some` of the score
`min(100, score * 100)`. -/
def calculate_prodigy_score (age : ℚ) (gender : String) (sleep_apnea : Bool)
    (opioid_dosage : ℚ) (sedative_use : Bool) (bmi : Option ℚ) (copd : Bool)
    (asa_status : Option ℚ) : Option ℚ :=
  match genderWeight gender with
  | none => none
  | some gw =>
    some (min 100 (prodigy_raw age gw sleep_apnea opioid_dosage sedative_use
      bmi copd asa_status * 100))

/-- `calculate_deviation_score(value, normal_range)` from `calculate_ors`:
zero inside the range, otherwise the relative overshoot, amplified 1.5× when
the overshoot exceeds 0.3. -/
def calculate_deviation_score (value : ℚ) (normal_range : ℚ × ℚ) : ℚ :=
  if value < normal_range.1 then
    (normal_range.1 - value) / normal_range.1
      * (if (normal_range.1 - value) / normal_range.1 > 3/10 then 3/2 else 1)
  else if value > normal_range.2 then
    (value - normal_range.2) / normal_range.2
      * (if (value - normal_range.2) / normal_range.2 > 3/10 then 3/2 else 1)
  else 0

/-- `amplitude_risk = (1 - max(0, min(1, breath_amplitude / 10))) * 1.5`. -/
def amplitude_risk (breath_amplitude : ℚ) : ℚ :=
  (1 - max 0 (min 1 (breath_amplitude / 10))) * (3/2)

/-- The SpO2 term added to the weighted sum when `spo2` is present: the deviation
from [95, 100], doubled when raw SpO2 < 92, times the weight 0.05. -/
def spo2_contribution (spo2 : Option ℚ) : ℚ :=
  match spo2 with
  | none => 0
  | some s =>
    (5/100) * (if s < 92 then calculate_deviation_score s (95, 100) * 2
               else calculate_deviation_score s (95, 100))

/-- The EtCO2 term added to the weighted sum when `etco2` is present: the deviation
from [35, 45], doubled when raw EtCO2 < 30 or > 50, times the weight 0.05. -/
def etco2_contribution (etco2 : Option ℚ) : ℚ :=
  match etco2 with
  | none => 0
  | some e =>
    (5/100) * (if e < 30 ∨ e > 50 then calculate_deviation_score e (35, 45) * 2
               else calculate_deviation_score e (35, 45))

/-- The weighted sum accumulated in `ors` in `calculate_ors` just before the
exponential transform `ors = 1 - math.exp(-2.2 * ors)` is applied. -/
def weightedSum (prodigy_score recent_breathing_rate current_breathing_rate
    heart_rate breath_amplitude : ℚ) (spo2 etco2 : Option ℚ) : ℚ :=
  (35/100) * (prodigy_score / 100)
  + (15/100) * calculate_deviation_score recent_breathing_rate (12, 20)
  + (15/100) * calculate_deviation_score current_breathing_rate (12, 20)
  + (10/100) * calculate_deviation_score heart_rate (60, 100)
  + (15/100) * amplitude_risk breath_amplitude
  + spo2_contribution spo2
  + etco2_contribution etco2

/-- The five risk labels produced by `calculate_ors`. -/
inductive RiskLevel : Type
  | critical
  | high
  | moderate
  | low
  | minimal
  deriving DecidableEq, Repr

/-- The message string attached to each risk level in `calculate_ors`. -/
def risk_label : RiskLevel → String
  | RiskLevel.critical => "Critical Risk - Immediate Intervention Required"
  | RiskLevel.high => "High Risk - Close Monitoring Required"
  | RiskLevel.moderate => "Moderate Risk - Regular Monitoring"
  | RiskLevel.low => "Low Risk - Standard Monitoring"
  | RiskLevel.minimal => "Minimal Risk - Routine Care"

/-- The `if ors > b ... elif ...` classification chain at the end of
`calculate_ors`, with the four breakpoints as parameters (instantiated at
0.65 / 0.45 / 0.25 / 0.15 in the source). -/
def risk_level {α : Type} [LinearOrder α] (b65 b45 b25 b15 : α) (ors : α) : RiskLevel :=
  if b65 < ors then RiskLevel.critical
  else if b45 < ors then RiskLevel.high
  else if b25 < ors then RiskLevel.moderate
  else if b15 < ors then RiskLevel.low
  else RiskLevel.minimal

/-- The spec's description of continuous-factor lookup, for comparison with
`thresholdWeight`: "the weight of the highest threshold not exceeding the value
..., or zero if the value is below every threshold" — i.e. the last entry of the
(ascending) table whose threshold is ≤ the value. -/
def highestThresholdWeight (tbl : List (ℚ × ℚ)) (value : ℚ) : ℚ :=
  match (tbl.filter (fun tw => decide (tw.1 ≤ value))).getLast? with
  | some tw => tw.2
  | none => 0

/-- Modelled from the spec: the legacy DynamicRiskCombiner variant is part of this
repository but absent from `src/` (the spec records it as one of "two near-duplicate
implementations").  Per the spec it normalizes the static score by the legacy
maximum 39 with weight 0.4 and adds respiratory-rate and heart-rate deviation terms
with fixed weights the spec does not list, so they are left as parameters. -/
def legacy_weighted_sum (w_recent w_current w_heart : ℚ)
    (static_score recent_breathing_rate current_breathing_rate heart_rate : ℚ) : ℚ :=
  (4/10) * (static_score / 39)
  + w_recent * calculate_deviation_score recent_breathing_rate (12, 20)
  + w_current * calculate_deviation_score current_breathing_rate (12, 20)
  + w_heart * calculate_deviation_score heart_rate (60, 100)

example : calculate_prodigy_score 65 "Male" true 120 true (some 32) true (some 3) = some 100 := by
  norm_num [calculate_prodigy_score, prodigy_raw, genderWeight, thresholdWeight, maxWithDefault,
    ageThresholds, opioidThresholds, bmiThresholds, asaThresholds,
    show lower "Male" = "male" from by decide]

example : calculate_prodigy_score 30 "female" false 0 false none false none = some 10 := by
  norm_num [calculate_prodigy_score, prodigy_raw, genderWeight, thresholdWeight, maxWithDefault,
    ageThresholds, opioidThresholds, bmiThresholds, asaThresholds,
    show lower "female" = "female" from by decide,
    show ("female" : String) ≠ "male" from by decide]

example : calculate_prodigy_score 30 "other" false 0 false none false none = none := by
  norm_num [calculate_prodigy_score, genderWeight,
    show lower "other" ≠ "male" from by decide,
    show lower "other" ≠ "female" from by decide]

example : calculate_deviation_score 16 (12, 20) = 0 := by
  norm_num [calculate_deviation_score]

example : calculate_deviation_score 8 (12, 20) = (1/2) := by
  norm_num [calculate_deviation_score]

example : weightedSum 0 16 16 80 10 none none = 0 := by
  norm_num [weightedSum, calculate_deviation_score, amplitude_risk,
    spo2_contribution, etco2_contribution]

example : weightedSum (-100) 16 16 80 10 none none = -(7/20) := by
  norm_num [weightedSum, calculate_deviation_score, amplitude_risk,
    spo2_contribution, etco2_contribution]

example : risk_level (65/100 : ℚ) (45/100) (25/100) (15/100) (1/2) = RiskLevel.high := by
  norm_num [risk_level]

/-! ### Helper lemmas -/

lemma le_foldl_max (xs : List ℚ) (a b : ℚ) (h : a ≤ b) : a ≤ xs.foldl max b := by
  induction xs generalizing b with
  | nil => exact h
  | cons x xs ih => exact ih _ (le_trans h (le_max_left b x))

lemma maxWithDefault_nonneg (l : List ℚ) (h : ∀ x ∈ l, 0 ≤ x) : 0 ≤ maxWithDefault 0 l := by
  cases l with
  | nil => simp [maxWithDefault]
  | cons x xs => exact le_foldl_max xs 0 x (h x (List.mem_cons_self x xs))

lemma thresholdWeight_nonneg (tbl : List (ℚ × ℚ)) (v : ℚ) (h : ∀ p ∈ tbl, 0 ≤ p.2) :
    0 ≤ thresholdWeight tbl v := by
  apply maxWithDefault_nonneg
  intro x hx
  rcases List.mem_map.mp hx with ⟨p, hp, rfl⟩
  exact h p (List.mem_filter.mp hp).1

lemma ageThresholds_nonneg : ∀ p ∈ ageThresholds, 0 ≤ p.2 := by
  intro p hp
  simp only [ageThresholds, List.mem_cons, List.not_mem_nil, or_false] at hp
  rcases hp with rfl | rfl | rfl | rfl <;> norm_num

lemma opioidThresholds_nonneg : ∀ p ∈ opioidThresholds, 0 ≤ p.2 := by
  intro p hp
  simp only [opioidThresholds, List.mem_cons, List.not_mem_nil, or_false] at hp
  rcases hp with rfl | rfl | rfl <;> norm_num

lemma bmiThresholds_nonneg : ∀ p ∈ bmiThresholds, 0 ≤ p.2 := by
  intro p hp
  simp only [bmiThresholds, List.mem_cons, List.not_mem_nil, or_false] at hp
  rcases hp with rfl | rfl | rfl <;> norm_num

lemma asaThresholds_nonneg : ∀ p ∈ asaThresholds, 0 ≤ p.2 := by
  intro p hp
  simp only [asaThresholds, List.mem_cons, List.not_mem_nil, or_false] at hp
  rcases hp with rfl | rfl | rfl <;> norm_num

lemma prodigy_raw_nonneg (age gw : ℚ) (sa : Bool) (od : ℚ) (su : Bool)
    (bmi : Option ℚ) (copd : Bool) (asa : Option ℚ) (hgw : 0 ≤ gw) :
    0 ≤ prodigy_raw age gw sa od su bmi copd asa := by
  have h1 := thresholdWeight_nonneg ageThresholds age ageThresholds_nonneg
  have h2 := thresholdWeight_nonneg opioidThresholds od opioidThresholds_nonneg
  have h3 : 0 ≤ (match bmi with
      | some b => thresholdWeight bmiThresholds b
      | none => 0) := by
    cases bmi with
    | none => norm_num
    | some b => exact thresholdWeight_nonneg bmiThresholds b bmiThresholds_nonneg
  have h4 : 0 ≤ (match asa with
      | some a => thresholdWeight asaThresholds a
      | none => 0) := by
    cases asa with
    | none => norm_num
    | some a => exact thresholdWeight_nonneg asaThresholds a asaThresholds_nonneg
  unfold prodigy_raw
  have h5 : 0 ≤ (if sa then (35:ℚ)/100 else 0) := by split_ifs <;> norm_num
  have h6 : 0 ≤ (if su then (35:ℚ)/100 else 0) := by split_ifs <;> norm_num
  have h7 : 0 ≤ (if copd then (25:ℚ)/100 else 0) := by split_ifs <;> norm_num
  linarith

lemma genderWeight_nonneg (g : String) (gw : ℚ) (h : genderWeight g = some gw) :
    0 ≤ gw := by
  unfold genderWeight at h
  split_ifs at h <;> simp only [Option.some.injEq, reduceCtorEq] at h <;> linarith

lemma calculate_deviation_score_nonneg (v lo hi : ℚ) (hlo : 0 < lo) (hhi : 0 < hi) :
    0 ≤ calculate_deviation_score v (lo, hi) := by
  unfold calculate_deviation_score
  split_ifs with h1 h2 h3 h4
  · exact mul_nonneg (div_nonneg (by linarith) hlo.le) (by norm_num)
  · exact mul_nonneg (div_nonneg (by linarith) hlo.le) (by norm_num)
  · exact mul_nonneg (div_nonneg (by simp at *; linarith) hhi.le) (by norm_num)
  · exact mul_nonneg (div_nonneg (by simp at *; linarith) hhi.le) (by norm_num)
  · norm_num

lemma amplitude_risk_nonneg (a : ℚ) : 0 ≤ amplitude_risk a := by
  unfold amplitude_risk
  have h : max 0 (min 1 (a/10)) ≤ 1 := max_le (by norm_num) (min_le_left _ _)
  nlinarith

lemma spo2_contribution_nonneg (s : Option ℚ) : 0 ≤ spo2_contribution s := by
  cases s with
  | none => simp [spo2_contribution]
  | some v =>
    have h := calculate_deviation_score_nonneg v 95 100 (by norm_num) (by norm_num)
    simp only [spo2_contribution]
    split_ifs <;> nlinarith

lemma etco2_contribution_nonneg (e : Option ℚ) : 0 ≤ etco2_contribution e := by
  cases e with
  | none => simp [etco2_contribution]
  | some v =>
    have h := calculate_deviation_score_nonneg v 35 45 (by norm_num) (by norm_num)
    simp only [etco2_contribution]
    split_ifs <;> nlinarith

lemma weightedSum_nonneg (p r c h a : ℚ) (s e : Option ℚ) (hp : 0 ≤ p) :
    0 ≤ weightedSum p r c h a s e := by
  have h1 := calculate_deviation_score_nonneg r 12 20 (by norm_num) (by norm_num)
  have h2 := calculate_deviation_score_nonneg c 12 20 (by norm_num) (by norm_num)
  have h3 := calculate_deviation_score_nonneg h 60 100 (by norm_num) (by norm_num)
  have h4 := amplitude_risk_nonneg a
  have h5 := spo2_contribution_nonneg s
  have h6 := etco2_contribution_nonneg e
  unfold weightedSum
  nlinarith

lemma amplitude_risk_pos (a : ℚ) (ha : a < 10) : 0 < amplitude_risk a := by
  unfold amplitude_risk
  have h1 : min 1 (a/10) ≤ a/10 := min_le_right _ _
  have h2 : max 0 (min 1 (a/10)) < 1 :=
    max_lt (by norm_num) (lt_of_le_of_lt h1 (by linarith))
  nlinarith

lemma weightedSum_pos (p r c h a : ℚ) (s e : Option ℚ) (hp : 0 ≤ p) (ha : a < 10) :
    0 < weightedSum p r c h a s e := by
  have h1 := calculate_deviation_score_nonneg r 12 20 (by norm_num) (by norm_num)
  have h2 := calculate_deviation_score_nonneg c 12 20 (by norm_num) (by norm_num)
  have h3 := calculate_deviation_score_nonneg h 60 100 (by norm_num) (by norm_num)
  have h4 := amplitude_risk_pos a ha
  have h5 := spo2_contribution_nonneg s
  have h6 := etco2_contribution_nonneg e
  unfold weightedSum
  nlinarith

lemma pow_le_exp_of_nonneg (s : ℝ) (n : ℕ) (hs : 0 ≤ s) : (1 + s)^n ≤ Real.exp (n * s) := by
  rw [Real.exp_nat_mul]
  exact pow_le_pow_left₀ (by linarith) (by linarith [Real.add_one_le_exp s]) n

lemma exp_le_pow_of_lt_one (s : ℝ) (n : ℕ) (h1 : s < 1) :
    Real.exp (n * s) ≤ ((1 - s)⁻¹)^n := by
  rw [Real.exp_nat_mul]
  apply pow_le_pow_left₀ (le_of_lt (Real.exp_pos s))
  have h2 : 0 < 1 - s := by linarith
  have h3 : 1 - s ≤ Real.exp (-s) := by linarith [Real.add_one_le_exp (-s)]
  have h4 : Real.exp s = (Real.exp (-s))⁻¹ := by
    rw [← Real.exp_neg, neg_neg]
  rw [h4]
  exact inv_anti₀ h2 h3

/-! ### Claim theorems -/

/-- C2: for every set of patient risk factors on which `calculate_prodigy_score`
returns a score (i.e. the gender category is recognized), the returned static
score lies between 0 and the maximum score 100 inclusive: no factor pushes the
score negative, and the summed, ×100-scaled score is clamped at 100. -/
theorem prodigy_score_bounds (age : ℚ) (gender : String) (sleep_apnea : Bool)
    (opioid_dosage : ℚ) (sedative_use : Bool) (bmi : Option ℚ) (copd : Bool)
    (asa_status : Option ℚ) (s : ℚ)
    (hs : calculate_prodigy_score age gender sleep_apnea opioid_dosage sedative_use
      bmi copd asa_status = some s) :
    0 ≤ s ∧ s ≤ 100 := by
  unfold calculate_prodigy_score at hs
  cases hg : genderWeight gender with
  | none => rw [hg] at hs; exact absurd hs (by simp)
  | some gw =>
    rw [hg] at hs
    simp only [Option.some.injEq] at hs
    subst hs
    have hraw := prodigy_raw_nonneg age gw sleep_apnea opioid_dosage sedative_use
      bmi copd asa_status (genderWeight_nonneg gender gw hg)
    exact ⟨le_min (by norm_num) (by nlinarith), min_le_left _ _⟩

/-- Witness for C2 at a concrete high-risk input (the raw sum 2.15 is clamped
to 100). -/
theorem prodigy_score_bounds_witness : 0 ≤ (100:ℚ) ∧ (100:ℚ) ≤ 100 :=
  prodigy_score_bounds 65 "Male" true 120 true (some 32) true (some 3) 100 (by
    norm_num [calculate_prodigy_score, prodigy_raw, genderWeight, thresholdWeight,
      maxWithDefault, ageThresholds, opioidThresholds, bmiThresholds, asaThresholds,
      show lower "Male" = "male" from by decide])

lemma prodigy_raw_le_of_flag (age gw od : ℚ) (bmi : Option ℚ) (asa : Option ℚ)
    (sa su cp : Bool) :
    prodigy_raw age gw false od su bmi cp asa ≤ prodigy_raw age gw true od su bmi cp asa
  ∧ prodigy_raw age gw sa od false bmi cp asa ≤ prodigy_raw age gw sa od true bmi cp asa
  ∧ prodigy_raw age gw sa od su bmi false asa ≤ prodigy_raw age gw sa od su bmi true asa := by
  unfold prodigy_raw
  refine ⟨?_, ?_, ?_⟩ <;> simp <;> norm_num

/-- C6: switching any single boolean risk factor (sleep apnea, sedative use, COPD)
from false to true, all other inputs held fixed, never decreases the returned
static score. -/
theorem prodigy_score_bool_mono (age : ℚ) (gender : String) (opioid_dosage : ℚ)
    (bmi : Option ℚ) (asa_status : Option ℚ) (sa su cp : Bool) (a b : ℚ) :
    (calculate_prodigy_score age gender false opioid_dosage su bmi cp asa_status = some a →
     calculate_prodigy_score age gender true opioid_dosage su bmi cp asa_status = some b →
     a ≤ b)
  ∧ (calculate_prodigy_score age gender sa opioid_dosage false bmi cp asa_status = some a →
     calculate_prodigy_score age gender sa opioid_dosage true bmi cp asa_status = some b →
     a ≤ b)
  ∧ (calculate_prodigy_score age gender sa opioid_dosage su bmi false asa_status = some a →
     calculate_prodigy_score age gender sa opioid_dosage su bmi true asa_status = some b →
     a ≤ b) := by
  unfold calculate_prodigy_score
  cases hg : genderWeight gender with
  | none => refine ⟨?_, ?_, ?_⟩ <;> intro ha hb <;> exact absurd ha (by simp)
  | some gw =>
    have hmono := prodigy_raw_le_of_flag age gw opioid_dosage bmi asa_status sa su cp
    refine ⟨?_, ?_, ?_⟩ <;> intro ha hb <;>
      simp only [Option.some.injEq] at ha hb <;> subst ha <;> subst hb
    · exact min_le_min (le_refl 100) (by nlinarith [hmono.1])
    · exact min_le_min (le_refl 100) (by nlinarith [hmono.2.1])
    · exact min_le_min (le_refl 100) (by nlinarith [hmono.2.2])

/-- Witness for C6: toggling sleep apnea at a concrete input raises the score
from 10 to 45, so 10 ≤ 45. -/
theorem prodigy_score_bool_mono_witness : (10:ℚ) ≤ 45 :=
  (prodigy_score_bool_mono 30 "female" 0 none none false false false 10 45).1
    (by norm_num [calculate_prodigy_score, prodigy_raw, genderWeight, thresholdWeight,
        maxWithDefault, ageThresholds, opioidThresholds,
        show lower "female" = "female" from by decide,
        show ("female" : String) ≠ "male" from by decide])
    (by norm_num [calculate_prodigy_score, prodigy_raw, genderWeight, thresholdWeight,
        maxWithDefault, ageThresholds, opioidThresholds,
        show lower "female" = "female" from by decide,
        show ("female" : String) ≠ "male" from by decide])

/-- C8: the gender contribution is selected case-insensitively between exactly two
fixed constants (0.20 for male, 0.10 for female); any other gender string makes
`calculate_prodigy_score` fail with a distinguishable error (`none`, modelling the
propagated `KeyError`) rather than return a default score. -/
theorem gender_selection_and_validation (g : String) :
    (∀ w : ℚ, genderWeight g = some w ↔
      (lower g = "male" ∧ w = 20/100) ∨ (lower g = "female" ∧ w = 10/100))
  ∧ (∀ (age : ℚ) (sa : Bool) (od : ℚ) (su : Bool) (bmi : Option ℚ) (cp : Bool)
      (asa : Option ℚ) (g2 : String), lower g = lower g2 →
        calculate_prodigy_score age g sa od su bmi cp asa
          = calculate_prodigy_score age g2 sa od su bmi cp asa)
  ∧ (∀ (age : ℚ) (sa : Bool) (od : ℚ) (su : Bool) (bmi : Option ℚ) (cp : Bool)
      (asa : Option ℚ),
        calculate_prodigy_score age g sa od su bmi cp asa = none ↔
          (lower g ≠ "male" ∧ lower g ≠ "female")) := by
  refine ⟨?_, ?_, ?_⟩
  · intro w
    unfold genderWeight
    split_ifs with h1 h2
    · simp only [Option.some.injEq]
      constructor
      · intro h; exact Or.inl ⟨h1, h.symm⟩
      · rintro (⟨_, rfl⟩ | ⟨hf, rfl⟩)
        · rfl
        · rw [h1] at hf; exact absurd hf (by decide)
    · simp only [Option.some.injEq]
      constructor
      · intro h; exact Or.inr ⟨h2, h.symm⟩
      · rintro (⟨hm, rfl⟩ | ⟨_, rfl⟩)
        · exact absurd hm h1
        · rfl
    · simp only [reduceCtorEq, false_iff]
      rintro (⟨hm, _⟩ | ⟨hf, _⟩)
      · exact h1 hm
      · exact h2 hf
  · intro age sa od su bmi cp asa g2 h
    unfold calculate_prodigy_score genderWeight
    rw [h]
  · intro age sa od su bmi cp asa
    unfold calculate_prodigy_score genderWeight
    split_ifs with h1 h2 <;> simp_all

/-- Witness for C8: at the unrecognized gender string "unknown" the score is `none`,
and `"MALE"` selects the same result as `"male"`. -/
theorem gender_selection_and_validation_witness :
    calculate_prodigy_score 30 "unknown" false 0 false none false none = none ∧
    calculate_prodigy_score 30 "MALE" false 0 false none false none
      = calculate_prodigy_score 30 "male" false 0 false none false none :=
  ⟨((gender_selection_and_validation "unknown").2.2 30 false 0 false none false none).mpr
      (by constructor <;> decide),
   (gender_selection_and_validation "MALE").2.1 30 false 0 false none false none "male"
      (by decide)⟩

/-- C3: the risk-level classification is a deterministic, non-overlapping partition
of the ORS values into exactly 5 ordered labels at the fixed breakpoints
0.15, 0.25, 0.45, 0.65, each boundary exclusive on the lower side, and every label
is attained on [0, 1). -/
theorem risk_level_partition :
    (∀ x : ℝ,
      (risk_level (65/100) (45/100) (25/100) (15/100) x = RiskLevel.critical ↔ 65/100 < x)
    ∧ (risk_level (65/100) (45/100) (25/100) (15/100) x = RiskLevel.high ↔
        45/100 < x ∧ x ≤ 65/100)
    ∧ (risk_level (65/100) (45/100) (25/100) (15/100) x = RiskLevel.moderate ↔
        25/100 < x ∧ x ≤ 45/100)
    ∧ (risk_level (65/100) (45/100) (25/100) (15/100) x = RiskLevel.low ↔
        15/100 < x ∧ x ≤ 25/100)
    ∧ (risk_level (65/100) (45/100) (25/100) (15/100) x = RiskLevel.minimal ↔
        x ≤ 15/100))
  ∧ (∀ l : RiskLevel, ∃ x : ℝ, 0 ≤ x ∧ x < 1 ∧
      risk_level (65/100) (45/100) (25/100) (15/100) x = l) := by
  constructor
  · intro x
    unfold risk_level
    split_ifs with h1 h2 h3 h4 <;>
      refine ⟨?_, ?_, ?_, ?_, ?_⟩ <;> simp_all <;> first
        | linarith
        | (intro h; linarith)
  · intro l
    cases l with
    | critical => exact ⟨7/10, by norm_num, by norm_num, by norm_num [risk_level]⟩
    | high => exact ⟨1/2, by norm_num, by norm_num, by norm_num [risk_level]⟩
    | moderate => exact ⟨3/10, by norm_num, by norm_num, by norm_num [risk_level]⟩
    | low => exact ⟨2/10, by norm_num, by norm_num, by norm_num [risk_level]⟩
    | minimal => exact ⟨1/10, by norm_num, by norm_num, by norm_num [risk_level]⟩

lemma calculate_deviation_score_eq (v lo hi : ℚ) :
    calculate_deviation_score v (lo, hi) =
      if v < lo then (lo - v)/lo * (if (lo - v)/lo > 3/10 then 3/2 else 1)
      else if v > hi then (v - hi)/hi * (if (v - hi)/hi > 3/10 then 3/2 else 1)
      else 0 := rfl

lemma calculate_deviation_score_of_lt (v lo hi : ℚ) (h : v < lo) :
    calculate_deviation_score v (lo, hi) =
      (lo - v)/lo * (if (lo - v)/lo > 3/10 then 3/2 else 1) := by
  rw [calculate_deviation_score_eq, if_pos h]

lemma calculate_deviation_score_of_gt (v lo hi : ℚ) (h1 : lo ≤ hi) (h2 : hi < v) :
    calculate_deviation_score v (lo, hi) =
      (v - hi)/hi * (if (v - hi)/hi > 3/10 then 3/2 else 1) := by
  have hc : ¬ (v < lo) := by linarith
  rw [calculate_deviation_score_eq, if_neg hc, if_pos h2]

lemma calculate_deviation_score_of_mem (v lo hi : ℚ) (h1 : lo ≤ v) (h2 : v ≤ hi) :
    calculate_deviation_score v (lo, hi) = 0 := by
  have hc : ¬ (v < lo) := by linarith
  have hd : ¬ (v > hi) := by linarith
  rw [calculate_deviation_score_eq, if_neg hc, if_neg hd]

lemma deviation_amp_mono (d1 d2 : ℚ) (h0 : 0 ≤ d1) (h : d1 < d2) :
    d1 * (if d1 > 3/10 then 3/2 else 1) < d2 * (if d2 > 3/10 then 3/2 else 1) := by
  split_ifs with ha hb hb
  · linarith
  · exact absurd (lt_trans ha h) hb
  · push_neg at ha; nlinarith
  · linarith

/-- C4: for a normal range `[lo, hi]` with `0 < lo ≤ hi` (as all four ranges in
`calculate_ors` are), the deviation function returns 0 inside the range; outside it
returns the relative overshoot `(lo-v)/lo` resp. `(v-hi)/hi`, amplified by 1.5×
exactly when that overshoot exceeds 0.30; and it is strictly increasing in the
absolute overshoot on each side of the range. -/
theorem deviation_score_spec (lo hi : ℚ) (hlo : 0 < lo) (hrange : lo ≤ hi) :
    (∀ v, lo ≤ v → v ≤ hi → calculate_deviation_score v (lo, hi) = 0)
  ∧ (∀ v, v < lo → calculate_deviation_score v (lo, hi) =
      (lo - v)/lo * (if (lo - v)/lo > 3/10 then 3/2 else 1))
  ∧ (∀ v, hi < v → calculate_deviation_score v (lo, hi) =
      (v - hi)/hi * (if (v - hi)/hi > 3/10 then 3/2 else 1))
  ∧ (∀ v1 v2, hi < v1 → v1 < v2 →
      calculate_deviation_score v1 (lo, hi) < calculate_deviation_score v2 (lo, hi))
  ∧ (∀ v1 v2, v1 < v2 → v2 < lo →
      calculate_deviation_score v2 (lo, hi) < calculate_deviation_score v1 (lo, hi)) := by
  have hhi : 0 < hi := lt_of_lt_of_le hlo hrange
  refine ⟨?_, ?_, ?_, ?_, ?_⟩
  · intro v h1 h2
    exact calculate_deviation_score_of_mem v lo hi h1 h2
  · intro v h
    exact calculate_deviation_score_of_lt v lo hi h
  · intro v h
    exact calculate_deviation_score_of_gt v lo hi hrange h
  · intro v1 v2 h1 h2
    rw [calculate_deviation_score_of_gt v1 lo hi hrange h1,
      calculate_deviation_score_of_gt v2 lo hi hrange (by linarith)]
    have hd : (v1 - hi)/hi < (v2 - hi)/hi := by
      rw [div_lt_div_iff₀ hhi hhi]; nlinarith
    exact deviation_amp_mono _ _ (div_nonneg (by linarith) hhi.le) hd
  · intro v1 v2 h1 h2
    rw [calculate_deviation_score_of_lt v1 lo hi (by linarith),
      calculate_deviation_score_of_lt v2 lo hi h2]
    have hd : (lo - v2)/lo < (lo - v1)/lo := by
      rw [div_lt_div_iff₀ hlo hlo]; nlinarith
    exact deviation_amp_mono _ _ (div_nonneg (by linarith) hlo.le) hd

/-- Witness for C4 at the breathing-rate range [12, 20]: in-range value 16 gives 0,
and above-range values 24 < 26 give strictly increasing deviations. -/
theorem deviation_score_spec_witness :
    calculate_deviation_score 16 (12, 20) = 0 ∧
    calculate_deviation_score 24 (12, 20) < calculate_deviation_score 26 (12, 20) :=
  ⟨(deviation_score_spec 12 20 (by norm_num) (by norm_num)).1 16 (by norm_num) (by norm_num),
   (deviation_score_spec 12 20 (by norm_num) (by norm_num)).2.2.2.1 24 26
     (by norm_num) (by norm_num)⟩

lemma tw_eq_highest_age (v : ℚ) :
    thresholdWeight ageThresholds v = highestThresholdWeight ageThresholds v := by
  by_cases h50 : 50 ≤ v <;> by_cases h60 : 60 ≤ v <;>
    by_cases h70 : 70 ≤ v <;> by_cases h80 : 80 ≤ v <;>
    simp [thresholdWeight, highestThresholdWeight, ageThresholds, maxWithDefault,
      List.filter_cons, h50, h60, h70, h80] <;> norm_num [max_def]

lemma tw_eq_highest_opioid (v : ℚ) :
    thresholdWeight opioidThresholds v = highestThresholdWeight opioidThresholds v := by
  by_cases h50 : 50 ≤ v <;> by_cases h100 : 100 ≤ v <;> by_cases h200 : 200 ≤ v <;>
    simp [thresholdWeight, highestThresholdWeight, opioidThresholds, maxWithDefault,
      List.filter_cons, h50, h100, h200] <;> norm_num [max_def]

lemma tw_eq_highest_bmi (v : ℚ) :
    thresholdWeight bmiThresholds v = highestThresholdWeight bmiThresholds v := by
  by_cases h30 : 30 ≤ v <;> by_cases h35 : 35 ≤ v <;> by_cases h40 : 40 ≤ v <;>
    simp [thresholdWeight, highestThresholdWeight, bmiThresholds, maxWithDefault,
      List.filter_cons, h30, h35, h40] <;> norm_num [max_def]

lemma tw_eq_highest_asa (v : ℚ) :
    thresholdWeight asaThresholds v = highestThresholdWeight asaThresholds v := by
  by_cases h2 : 2 ≤ v <;> by_cases h3 : 3 ≤ v <;> by_cases h4 : 4 ≤ v <;>
    simp [thresholdWeight, highestThresholdWeight, asaThresholds, maxWithDefault,
      List.filter_cons, h2, h3, h4] <;> norm_num [max_def]

/-- C5: for every continuous factor table of `calculate_prodigy_score` (age,
opioid dose, BMI, ASA class), the contributed weight — computed in the source as
the maximum weight among all thresholds ≤ value — equals the weight paired with
the highest threshold not exceeding the value, and equals zero when the value is
below every threshold of the table. -/
theorem continuous_factor_lookup :
    (∀ v : ℚ, thresholdWeight ageThresholds v = highestThresholdWeight ageThresholds v)
  ∧ (∀ v : ℚ, thresholdWeight opioidThresholds v = highestThresholdWeight opioidThresholds v)
  ∧ (∀ v : ℚ, thresholdWeight bmiThresholds v = highestThresholdWeight bmiThresholds v)
  ∧ (∀ v : ℚ, thresholdWeight asaThresholds v = highestThresholdWeight asaThresholds v)
  ∧ (∀ v : ℚ, v < 50 → thresholdWeight ageThresholds v = 0)
  ∧ (∀ v : ℚ, v < 50 → thresholdWeight opioidThresholds v = 0)
  ∧ (∀ v : ℚ, v < 30 → thresholdWeight bmiThresholds v = 0)
  ∧ (∀ v : ℚ, v < 2 → thresholdWeight asaThresholds v = 0) := by
  refine ⟨tw_eq_highest_age, tw_eq_highest_opioid, tw_eq_highest_bmi, tw_eq_highest_asa,
    ?_, ?_, ?_, ?_⟩
  · intro v h
    have n1 : ¬ ((50:ℚ) ≤ v) := not_le.mpr h
    have n2 : ¬ ((60:ℚ) ≤ v) := not_le.mpr (by linarith)
    have n3 : ¬ ((70:ℚ) ≤ v) := not_le.mpr (by linarith)
    have n4 : ¬ ((80:ℚ) ≤ v) := not_le.mpr (by linarith)
    simp [thresholdWeight, ageThresholds, maxWithDefault, List.filter_cons, n1, n2, n3, n4]
  · intro v h
    have n1 : ¬ ((50:ℚ) ≤ v) := not_le.mpr h
    have n2 : ¬ ((100:ℚ) ≤ v) := not_le.mpr (by linarith)
    have n3 : ¬ ((200:ℚ) ≤ v) := not_le.mpr (by linarith)
    simp [thresholdWeight, opioidThresholds, maxWithDefault, List.filter_cons, n1, n2, n3]
  · intro v h
    have n1 : ¬ ((30:ℚ) ≤ v) := not_le.mpr h
    have n2 : ¬ ((35:ℚ) ≤ v) := not_le.mpr (by linarith)
    have n3 : ¬ ((40:ℚ) ≤ v) := not_le.mpr (by linarith)
    simp [thresholdWeight, bmiThresholds, maxWithDefault, List.filter_cons, n1, n2, n3]
  · intro v h
    have n1 : ¬ ((2:ℚ) ≤ v) := not_le.mpr h
    have n2 : ¬ ((3:ℚ) ≤ v) := not_le.mpr (by linarith)
    have n3 : ¬ ((4:ℚ) ≤ v) := not_le.mpr (by linarith)
    simp [thresholdWeight, asaThresholds, maxWithDefault, List.filter_cons, n1, n2, n3]

/-- Witness for C5: concrete evaluations at age 65 (inside the table) and at
age 40 (below every threshold). -/
theorem continuous_factor_lookup_witness :
    thresholdWeight ageThresholds 65 = highestThresholdWeight ageThresholds 65 ∧
    thresholdWeight ageThresholds 40 = 0 :=
  ⟨continuous_factor_lookup.1 65,
   continuous_factor_lookup.2.2.2.2.1 40 (by norm_num)⟩

/-- C1 counterexample: `calculate_ors` takes the prodigy score as a plain parameter,
and a negative value makes the weighted sum negative and the returned ORS negative:
at prodigy_score = -100 with all vitals benign the weighted sum is -7/20 and
ORS = 1 - exp(0.77) < 0, refuting "for every input the ORS is in [0, 1)". -/
theorem ors_negative_counterexample :
    1 - Real.exp (-(2.2) * ((weightedSum (-100) 16 16 80 10 none none : ℚ) : ℝ)) < 0 := by
  have hws : (weightedSum (-100) 16 16 80 10 none none : ℚ) = -(7/20) := by
    norm_num [weightedSum, calculate_deviation_score, amplitude_risk,
      spo2_contribution, etco2_contribution]
  rw [hws]
  have h2 : -(2.2:ℝ) * ((-(7/20) : ℚ) : ℝ) = 77/100 := by push_cast; ring
  rw [h2]
  have h3 : (1:ℝ) < Real.exp (77/100) := Real.one_lt_exp_iff.mpr (by norm_num)
  linarith

/-- C1 (amended): the ORS `1 - exp(-2.2 * weightedSum)` returned by `calculate_ors`
is strictly below 1 for every input, and lies in [0, 1) whenever the prodigy-score
argument is nonnegative (in particular for every score `calculate_prodigy_score`
can produce). -/
theorem ors_bounds (p r c h a : ℚ) (s e : Option ℚ) :
    1 - Real.exp (-(2.2) * ((weightedSum p r c h a s e : ℚ) : ℝ)) < 1
  ∧ (0 ≤ p → 0 ≤ 1 - Real.exp (-(2.2) * ((weightedSum p r c h a s e : ℚ) : ℝ))) := by
  constructor
  · have h1 := Real.exp_pos (-(2.2) * ((weightedSum p r c h a s e : ℚ) : ℝ))
    linarith
  · intro hp
    have hws : (0:ℝ) ≤ ((weightedSum p r c h a s e : ℚ) : ℝ) := by
      exact_mod_cast weightedSum_nonneg p r c h a s e hp
    have h2 : Real.exp (-(2.2) * ((weightedSum p r c h a s e : ℚ) : ℝ)) ≤ 1 :=
      Real.exp_le_one_iff.mpr (by nlinarith)
    linarith

/-- Witness for C1's amended theorem at prodigy score 24 and benign vitals. -/
theorem ors_bounds_witness :
    1 - Real.exp (-(2.2) * ((weightedSum 24 16 16 80 10 none none : ℚ) : ℝ)) < 1
  ∧ 0 ≤ 1 - Real.exp (-(2.2) * ((weightedSum 24 16 16 80 10 none none : ℚ) : ℝ)) :=
  ⟨(ors_bounds 24 16 16 80 10 none none).1,
   (ors_bounds 24 16 16 80 10 none none).2 (by norm_num)⟩

/-- C7: two calls to `calculate_ors` identical except for SpO2 = 88 vs SpO2 = 93:
the SpO2 = 88 call returns a strictly larger ORS (the deviation 7/95 is doubled by
the critical-desaturation override since 88 < 92, while 93's deviation 2/95 is not),
for every choice of the remaining inputs. -/
theorem spo2_override_strict (p r c h a : ℚ) (e : Option ℚ) :
    1 - Real.exp (-(2.2) * ((weightedSum p r c h a (some 93) e : ℚ) : ℝ))
      < 1 - Real.exp (-(2.2) * ((weightedSum p r c h a (some 88) e : ℚ) : ℝ)) := by
  have h88 : spo2_contribution (some 88) = 7/950 := by
    norm_num [spo2_contribution, calculate_deviation_score]
  have h93 : spo2_contribution (some 93) = 1/950 := by
    norm_num [spo2_contribution, calculate_deviation_score]
  have hdiff : weightedSum p r c h a (some 88) e
      = weightedSum p r c h a (some 93) e + 3/475 := by
    unfold weightedSum
    rw [h88, h93]
    ring
  have hlt : ((weightedSum p r c h a (some 93) e : ℚ) : ℝ)
      < ((weightedSum p r c h a (some 88) e : ℚ) : ℝ) := by
    rw [hdiff]
    push_cast
    linarith
  have hexp := Real.exp_lt_exp.mpr
    (show -(2.2) * ((weightedSum p r c h a (some 88) e : ℚ) : ℝ)
        < -(2.2) * ((weightedSum p r c h a (some 93) e : ℚ) : ℝ) by nlinarith)
  linarith

/-- C10: with the optional vitals absent, a nonnegative prodigy score and breath
amplitude < 10, the ORS is strictly positive (the amplitude term
`(1 - min(1, max(0, amplitude/10))) * 1.5` is strictly positive); and ORS = 0 is
attainable only with breath amplitude ≥ 10. -/
theorem breath_amplitude_floor (p r c h a : ℚ) (hp : 0 ≤ p) :
    (a < 10 → 0 < 1 - Real.exp (-(2.2) * ((weightedSum p r c h a none none : ℚ) : ℝ)))
  ∧ (1 - Real.exp (-(2.2) * ((weightedSum p r c h a none none : ℚ) : ℝ)) = 0 → 10 ≤ a) := by
  constructor
  · intro ha
    have hws : (0:ℚ) < weightedSum p r c h a none none :=
      weightedSum_pos p r c h a none none hp ha
    have hws2 : (0:ℝ) < ((weightedSum p r c h a none none : ℚ) : ℝ) := by exact_mod_cast hws
    have h2 : Real.exp (-(2.2) * ((weightedSum p r c h a none none : ℚ) : ℝ)) < 1 :=
      Real.exp_lt_one_iff.mpr (by nlinarith)
    linarith
  · intro h0
    by_contra hlt
    push_neg at hlt
    have hws : (0:ℚ) < weightedSum p r c h a none none :=
      weightedSum_pos p r c h a none none hp hlt
    have hws2 : (0:ℝ) < ((weightedSum p r c h a none none : ℚ) : ℝ) := by exact_mod_cast hws
    have h2 : Real.exp (-(2.2) * ((weightedSum p r c h a none none : ℚ) : ℝ)) < 1 :=
      Real.exp_lt_one_iff.mpr (by nlinarith)
    linarith

/-- Witness for C10 at prodigy score 0, in-range vitals and amplitude 5. -/
theorem breath_amplitude_floor_witness :
    0 < 1 - Real.exp (-(2.2) * ((weightedSum 0 16 16 80 5 none none : ℚ) : ℝ)) :=
  (breath_amplitude_floor 0 16 16 80 5 (by norm_num)).1 (by norm_num)

lemma exp_weighted_lower : ((1311:ℝ)/1300)^64 ≤ Real.exp (176/325) := by
  have h := pow_le_exp_of_nonneg (11/1300) 64 (by norm_num)
  have harg : ((64:ℕ):ℝ) * ((11:ℝ)/1300) = 176/325 := by norm_num
  rw [harg] at h
  calc ((1311:ℝ)/1300)^64 = ((1:ℝ) + 11/1300)^64 := by norm_num
    _ ≤ Real.exp (176/325) := h

lemma exp_weighted_upper : Real.exp (176/325) ≤ ((1300:ℝ)/1289)^64 := by
  have h := exp_le_pow_of_lt_one (11/1300) 64 (by norm_num)
  have harg : ((64:ℕ):ℝ) * ((11:ℝ)/1300) = 176/325 := by norm_num
  rw [harg] at h
  calc Real.exp (176/325) ≤ (((1:ℝ) - 11/1300)⁻¹)^64 := h
    _ = ((1300:ℝ)/1289)^64 := by norm_num

lemma exp_neg_weighted_bounds :
    ((1289:ℝ)/1300)^64 ≤ Real.exp (-(176/325))
  ∧ Real.exp (-(176/325)) ≤ ((1300:ℝ)/1311)^64 := by
  have hpos : (0:ℝ) < Real.exp (176/325) := Real.exp_pos _
  rw [Real.exp_neg]
  constructor
  · have h1 : ((1289:ℝ)/1300)^64 = (((1300:ℝ)/1289)^64)⁻¹ := by
      rw [← inv_pow]; norm_num
    rw [h1]
    exact inv_anti₀ hpos exp_weighted_upper
  · have h1 : ((1300:ℝ)/1311)^64 = (((1311:ℝ)/1300)^64)⁻¹ := by
      rw [← inv_pow]; norm_num
    rw [h1]
    exact inv_anti₀ (by positivity) exp_weighted_lower

lemma pow64_upper_num : ((1300:ℝ)/1311)^64 < 584/1000 := by
  rw [div_pow, div_lt_div_iff₀ (by positivity) (by norm_num)]
  norm_num

lemma pow64_lower_num : (57:ℝ)/100 < ((1289:ℝ)/1300)^64 := by
  rw [div_pow, div_lt_div_iff₀ (by norm_num) (by positivity)]
  norm_num

/-- C9 (spec-modelled): in the legacy combiner (static maximum 39, prodigy weight
0.4; this variant is part of the repository but absent from `src/`), with all
vitals at their range midpoints (breathing rate 16, heart rate 80) and static
score 24, every deviation term is 0, the weighted sum equals 0.4 * (24/39) ≈ 0.246,
and the ORS equals 1 - exp(-2.2 * 0.4 * (24/39)), which is within 0.01 of the
quoted 0.426 and is classified Moderate by the §3 breakpoints
(0.25 < ORS ≤ 0.45) — for every choice of the unspecified legacy deviation
weights. -/
theorem legacy_midpoint_example (w1 w2 w3 : ℚ) :
    calculate_deviation_score 16 (12, 20) = 0
  ∧ calculate_deviation_score 80 (60, 100) = 0
  ∧ legacy_weighted_sum w1 w2 w3 24 16 16 80 = (4/10) * (24/39)
  ∧ 25/100 < 1 - Real.exp (-(2.2) * ((legacy_weighted_sum w1 w2 w3 24 16 16 80 : ℚ) : ℝ))
  ∧ 1 - Real.exp (-(2.2) * ((legacy_weighted_sum w1 w2 w3 24 16 16 80 : ℚ) : ℝ)) ≤ 45/100
  ∧ |1 - Real.exp (-(2.2) * ((legacy_weighted_sum w1 w2 w3 24 16 16 80 : ℚ) : ℝ))
      - 426/1000| < 1/100
  ∧ risk_level (65/100) (45/100) (25/100) (15/100)
      (1 - Real.exp (-(2.2) * ((legacy_weighted_sum w1 w2 w3 24 16 16 80 : ℚ) : ℝ)))
      = RiskLevel.moderate := by
  have hd1 := calculate_deviation_score_of_mem 16 12 20 (by norm_num) (by norm_num)
  have hd2 := calculate_deviation_score_of_mem 80 60 100 (by norm_num) (by norm_num)
  have hws : legacy_weighted_sum w1 w2 w3 24 16 16 80 = 16/65 := by
    unfold legacy_weighted_sum
    rw [hd1, hd2]
    ring
  have harg : -(2.2:ℝ) * ((legacy_weighted_sum w1 w2 w3 24 16 16 80 : ℚ) : ℝ)
      = -(176/325) := by
    rw [hws]
    push_cast
    norm_num
  have hb1 : 416/1000 < 1 - Real.exp (-((176:ℝ)/325)) := by
    have h1 := exp_neg_weighted_bounds.2
    have h2 := pow64_upper_num
    linarith
  have hb2 : 1 - Real.exp (-((176:ℝ)/325)) < 43/100 := by
    have h1 := exp_neg_weighted_bounds.1
    have h2 := pow64_lower_num
    linarith
  rw [harg] at *
  refine ⟨hd1, hd2, by rw [hws]; norm_num, by linarith, by linarith, ?_, ?_⟩
  · rw [abs_lt]
    constructor <;> linarith
  · unfold risk_level
    have hc1 : ¬ ((65:ℝ)/100 < 1 - Real.exp (-((176:ℝ)/325))) := by linarith
    have hc2 : ¬ ((45:ℝ)/100 < 1 - Real.exp (-((176:ℝ)/325))) := by linarith
    have hc3 : (25:ℝ)/100 < 1 - Real.exp (-((176:ℝ)/325)) := by linarith
    rw [if_neg hc1, if_neg hc2, if_pos hc3]

end ORSCalc
